import Mathlib

set_option maxRecDepth 4000
set_option linter.unusedVariables false

/-!
Verification of the capacity-planning calculation core of the
`planung` dashboard (`src/streamlit_app.py`).

The embedding models:
  * `calculate_capacity` — the pure formula core.  Python numbers are
    modelled as rationals; `math.ceil` is `Int.ceil`.  A Python
    `ZeroDivisionError` (division by a zero denominator) is modelled by
    returning `none`; the returned result dictionary is modelled by the
    record `CapacityResult`, with the `'N/A'` marker of the
    alternative-path fields modelled as `Option.none`.
  * `create_sensitivity_analysis` — the sweep loop collecting
    `'Total Standard Packaging Units'` across a range of values for one
    varied parameter; the loop state carries the (never mutated)
    base-parameter object.
  * the session scenario list (`st.session_state.scenarios`) with its
    append operation.
-/

/-- Input record of `calculate_capacity` (its keyword arguments, in source
order).  All numeric inputs are modelled as rationals, as the Python code
applies the same arithmetic to ints and floats. -/
structure CapacityParameters where
  lot_size : ℚ
  parts_per_pu : ℚ
  working_days_per_week : ℚ
  luf_days : ℚ
  use_alternative : Bool
  alt_parts_per_pu : ℚ
  standard_price : ℚ
  alt_price : ℚ
deriving DecidableEq, Repr

/-- The dictionary returned by `calculate_capacity`, one field per key, in
source order.  Fields that the source fills with `'N/A'` when
`use_alternative` is false are `Option`-valued, `none` being the marker. -/
structure CapacityResult where
  lot_size : ℚ
  parts_per_pu : ℚ
  alt_parts_per_pu : Option ℚ
  working_days_per_week : ℚ
  luf_days : ℚ
  pu_per_lot : ℤ
  daily_production_rate : ℚ
  daily_pu_need_per_luf : ℤ
  luf_need_of_pu : ℚ
  total_packaging_units : ℚ
  alt_total_packaging_units : Option ℚ
  standard_cost : ℚ
  alt_cost : Option ℚ
  break_even_point : Option ℚ
deriving DecidableEq, Repr

/-- `calculate_capacity` (src/streamlit_app.py lines 10-48).  Divisions by
zero raise in Python; here each is guarded and yields `none`. -/
def calculate_capacity (p : CapacityParameters) : Option CapacityResult :=
  if p.parts_per_pu = 0 then none
  else if p.working_days_per_week = 0 then none
  else
    let pu_per_lot : ℤ := ⌈p.lot_size / p.parts_per_pu⌉
    let daily_production_rate : ℚ := p.lot_size / p.working_days_per_week
    let daily_pu_need_per_luf : ℤ := ⌈daily_production_rate / p.parts_per_pu⌉
    let luf_need_of_pu : ℚ := (daily_pu_need_per_luf : ℚ) * p.luf_days
    let total_packaging_units : ℚ := luf_need_of_pu + (pu_per_lot : ℚ) * 2
    if p.use_alternative then
      if p.alt_parts_per_pu = 0 then none
      else if p.alt_price = 0 then none
      else
        let alt_pu_per_lot : ℤ := ⌈p.lot_size / p.alt_parts_per_pu⌉
        let alt_daily_pu_need_per_luf : ℤ := ⌈daily_production_rate / p.alt_parts_per_pu⌉
        let alt_luf_need_of_pu : ℚ := (alt_daily_pu_need_per_luf : ℚ) * p.luf_days
        let alt_total_packaging_units : ℚ := alt_luf_need_of_pu + (alt_pu_per_lot : ℚ) * 2
        let standard_cost : ℚ := total_packaging_units * p.standard_price
        let alt_cost : ℚ := alt_total_packaging_units * p.alt_price
        let break_even_point : ℚ := standard_cost / p.alt_price
        some { lot_size := p.lot_size
               parts_per_pu := p.parts_per_pu
               alt_parts_per_pu := some p.alt_parts_per_pu
               working_days_per_week := p.working_days_per_week
               luf_days := p.luf_days
               pu_per_lot := pu_per_lot
               daily_production_rate := daily_production_rate
               daily_pu_need_per_luf := daily_pu_need_per_luf
               luf_need_of_pu := luf_need_of_pu
               total_packaging_units := total_packaging_units
               alt_total_packaging_units := some alt_total_packaging_units
               standard_cost := standard_cost
               alt_cost := some alt_cost
               break_even_point := some break_even_point }
    else
      let standard_cost : ℚ := total_packaging_units * p.standard_price
      some { lot_size := p.lot_size
             parts_per_pu := p.parts_per_pu
             alt_parts_per_pu := none
             working_days_per_week := p.working_days_per_week
             luf_days := p.luf_days
             pu_per_lot := pu_per_lot
             daily_production_rate := daily_production_rate
             daily_pu_need_per_luf := daily_pu_need_per_luf
             luf_need_of_pu := luf_need_of_pu
             total_packaging_units := total_packaging_units
             alt_total_packaging_units := none
             standard_cost := standard_cost
             alt_cost := none
             break_even_point := none }

/-- The default sidebar parameters of the app (lines 114-133), used as a
concrete evaluation point. -/
def exampleParams : CapacityParameters :=
  { lot_size := 1000, parts_per_pu := 10, working_days_per_week := 5,
    luf_days := 5, use_alternative := false, alt_parts_per_pu := 15,
    standard_price := 10, alt_price := 8 }

/-- `exampleParams` with the alternative-packaging checkbox ticked
(`use_alternative=true, alt_parts_per_pu=15, standard_price=10.0,
alt_price=8.0`). -/
def exampleAltParams : CapacityParameters :=
  { exampleParams with use_alternative := true }

/-- The four parameters offered by the sensitivity-analysis selectbox
(line 146-147). -/
inductive VariedField where
  | lot_size
  | parts_per_pu
  | working_days_per_week
  | luf_days
deriving DecidableEq, Repr

/-- `params = base_params.copy(); params[variable_param] = value`
(lines 78-79): a fresh record that differs from `base` only in the varied
field. -/
def setParam (base : CapacityParameters) (f : VariedField) (v : ℚ) :
    CapacityParameters :=
  match f with
  | .lot_size => { base with lot_size := v }
  | .parts_per_pu => { base with parts_per_pu := v }
  | .working_days_per_week => { base with working_days_per_week := v }
  | .luf_days => { base with luf_days := v }

/-- The `for value in range_values` loop of `create_sensitivity_analysis`
(lines 76-81).  The state threads the `base_params` object (so that its
non-mutation is expressible) and the accumulated `results` list; an
exception inside `calculate_capacity` aborts the whole loop (`none`). -/
def sensitivity_loop (variable_param : VariedField) :
    CapacityParameters → List ℚ → List ℚ →
      Option (CapacityParameters × List ℚ)
  | base_params, results, [] => some (base_params, results)
  | base_params, results, value :: rest =>
    match calculate_capacity (setParam base_params variable_param value) with
    | none => none
    | some capacity =>
        sensitivity_loop variable_param base_params
          (results ++ [capacity.total_packaging_units]) rest

/-- `create_sensitivity_analysis` (lines 75-81), restricted to its
computational content: the ordered list of
`'Total Standard Packaging Units'` values collected across the range
(the chart built from it is presentation).  Returns the final value of the
`base_params` object together with the results. -/
def create_sensitivity_analysis (base_params : CapacityParameters)
    (variable_param : VariedField) (range_values : List ℚ) :
    Option (CapacityParameters × List ℚ) :=
  sensitivity_loop variable_param base_params [] range_values

/-- `st.session_state.scenarios.append(result)` (line 168). -/
def addScenario (scenarios : List CapacityResult) (result : CapacityResult) :
    List CapacityResult :=
  scenarios ++ [result]

/-- Reading `st.session_state.scenarios` (lines 170-171). -/
def allScenarios (scenarios : List CapacityResult) : List CapacityResult :=
  scenarios

/-- Running `calculate_capacity` in a session (line 135): it reads none of
the session state, so the scenario list rides along unchanged next to the
produced result. -/
def run_compute_in_session (scenarios : List CapacityResult)
    (p : CapacityParameters) :
    List CapacityResult × Option CapacityResult :=
  (scenarios, calculate_capacity p)

/-- Running the sensitivity sweep in a session (line 153): likewise it
never touches the scenario list. -/
def run_sweep_in_session (scenarios : List CapacityResult)
    (base_params : CapacityParameters) (variable_param : VariedField)
    (range_values : List ℚ) :
    List CapacityResult × Option (CapacityParameters × List ℚ) :=
  (scenarios, create_sensitivity_analysis base_params variable_param range_values)

example :
    (calculate_capacity exampleParams).map CapacityResult.total_packaging_units
      = some 300 := by with_unfolding_all decide

/-- The result dictionary the app computes for `exampleParams`
(lines 135-139). -/
def exampleResult : CapacityResult :=
  { lot_size := 1000, parts_per_pu := 10, alt_parts_per_pu := none,
    working_days_per_week := 5, luf_days := 5, pu_per_lot := 100,
    daily_production_rate := 200, daily_pu_need_per_luf := 20,
    luf_need_of_pu := 100, total_packaging_units := 300,
    alt_total_packaging_units := none, standard_cost := 3000,
    alt_cost := none, break_even_point := none }

/-- The result dictionary for `exampleAltParams`. -/
def exampleAltResult : CapacityResult :=
  { exampleResult with
    alt_parts_per_pu := some 15,
    alt_total_packaging_units := some 204,
    alt_cost := some 1632,
    break_even_point := some 375 }

/-- Every result produced by `calculate_capacity` carries the standard-path
formula values, on both branches of `use_alternative`. -/
theorem calculate_capacity_fields {p : CapacityParameters}
    {r : CapacityResult} (h : calculate_capacity p = some r) :
    r.pu_per_lot = ⌈p.lot_size / p.parts_per_pu⌉ ∧
    r.daily_production_rate = p.lot_size / p.working_days_per_week ∧
    r.daily_pu_need_per_luf = ⌈p.lot_size / p.working_days_per_week / p.parts_per_pu⌉ ∧
    r.luf_need_of_pu = (r.daily_pu_need_per_luf : ℚ) * p.luf_days ∧
    r.total_packaging_units = r.luf_need_of_pu + (r.pu_per_lot : ℚ) * 2 ∧
    r.standard_cost = r.total_packaging_units * p.standard_price := by
  simp only [calculate_capacity] at h
  split at h
  · exact absurd h (by simp)
  split at h
  · exact absurd h (by simp)
  split at h
  · split at h
    · exact absurd h (by simp)
    split at h
    · exact absurd h (by simp)
    · rw [Option.some_inj] at h
      subst h
      simp
  · rw [Option.some_inj] at h
    subst h
    simp

/-- On the `use_alternative` branch the alternative-path fields of the
result are filled with the `alt_*` formula values. -/
theorem calculate_capacity_alt {p : CapacityParameters} {r : CapacityResult}
    (hu : p.use_alternative = true) (h : calculate_capacity p = some r) :
    r.alt_parts_per_pu = some p.alt_parts_per_pu ∧
    r.alt_total_packaging_units =
      some ((⌈p.lot_size / p.working_days_per_week / p.alt_parts_per_pu⌉ : ℚ)
          * p.luf_days + (⌈p.lot_size / p.alt_parts_per_pu⌉ : ℚ) * 2) ∧
    r.alt_cost = Option.map (· * p.alt_price) r.alt_total_packaging_units ∧
    r.break_even_point = some (r.standard_cost / p.alt_price) := by
  simp only [calculate_capacity, hu, eq_self_iff_true, if_true] at h
  split at h
  · exact absurd h (by simp)
  split at h
  · exact absurd h (by simp)
  split at h
  · exact absurd h (by simp)
  split at h
  · exact absurd h (by simp)
  rw [Option.some_inj] at h
  subst h
  simp

/-- On the other branch every alternative-path field is the `'N/A'`
marker. -/
theorem calculate_capacity_no_alt {p : CapacityParameters} {r : CapacityResult}
    (hu : p.use_alternative = false) (h : calculate_capacity p = some r) :
    r.alt_parts_per_pu = none ∧ r.alt_total_packaging_units = none ∧
    r.alt_cost = none ∧ r.break_even_point = none := by
  simp only [calculate_capacity, hu] at h
  split at h
  · exact absurd h (by simp)
  split at h
  · exact absurd h (by simp)
  split at h
  · rename_i htrue
    exact absurd htrue (by simp)
  · rw [Option.some_inj] at h
    subst h
    simp

/-- `calculate_capacity` succeeds whenever every divisor it reaches is
nonzero (positivity is not needed). -/
theorem calculate_capacity_isSome {p : CapacityParameters}
    (h1 : p.parts_per_pu ≠ 0) (h2 : p.working_days_per_week ≠ 0)
    (h3 : p.use_alternative = true → p.alt_parts_per_pu ≠ 0 ∧ p.alt_price ≠ 0) :
    (calculate_capacity p).isSome = true := by
  cases hu : p.use_alternative with
  | false => simp [calculate_capacity, h1, h2, hu]
  | true =>
      obtain ⟨h4, h5⟩ := h3 hu
      simp [calculate_capacity, h1, h2, hu, h4, h5]

/-- `calculate_capacity` fails (a `ZeroDivisionError` in the source) as soon
as one of the divisors it reaches is zero. -/
theorem calculate_capacity_eq_none {p : CapacityParameters}
    (h : p.parts_per_pu = 0 ∨ p.working_days_per_week = 0 ∨
      (p.use_alternative = true ∧ (p.alt_parts_per_pu = 0 ∨ p.alt_price = 0))) :
    calculate_capacity p = none := by
  rcases h with h | h | ⟨hu, h | h⟩
  · simp [calculate_capacity, h]
  · simp [calculate_capacity, h]
  · simp [calculate_capacity, hu, h]
  · simp [calculate_capacity, hu, h]

/-- Unrolling the sensitivity loop: the `base_params` object comes out as it
went in, and the collected values extend the accumulator by exactly the
per-value results of `calculate_capacity`, in range order. -/
theorem sensitivity_loop_spec (f : VariedField) :
    ∀ (vs : List ℚ) (base : CapacityParameters) (acc : List ℚ)
      (out : CapacityParameters × List ℚ),
      sensitivity_loop f base acc vs = some out →
      out.1 = base ∧ ∃ l, out.2 = acc ++ l ∧
        List.Forall₂ (fun v t =>
          (calculate_capacity (setParam base f v)).map
            CapacityResult.total_packaging_units = some t) vs l := by
  intro vs
  induction vs with
  | nil =>
      intro base acc out h
      simp only [sensitivity_loop] at h
      rw [Option.some_inj] at h
      subst h
      exact ⟨rfl, [], by simp, List.Forall₂.nil⟩
  | cons v rest ih =>
      intro base acc out h
      simp only [sensitivity_loop] at h
      cases hc : calculate_capacity (setParam base f v) with
      | none => rw [hc] at h; exact absurd h (by simp)
      | some c =>
          rw [hc] at h
          obtain ⟨h1, l, h2, h3⟩ :=
            ih base (acc ++ [c.total_packaging_units]) out h
          refine ⟨h1, c.total_packaging_units :: l, ?_, ?_⟩
          · rw [h2]; simp
          · exact List.Forall₂.cons (by rw [hc]; rfl) h3

/-- Folding `addScenario` appends the pushed results in call order. -/
theorem foldl_addScenario (rs : List CapacityResult) :
    ∀ acc, List.foldl addScenario acc rs = acc ++ rs := by
  induction rs with
  | nil => intro acc; simp
  | cons r rest ih =>
      intro acc
      simp only [List.foldl]
      rw [ih]
      simp [addScenario]

/-- Ceiling division of positive integers, characterised by bounds. -/
theorem ceil_div_bounds (l n : ℕ) (hl : 0 < l) (hn : 0 < n) :
    (l : ℤ) ≤ ⌈(l : ℚ) / (n : ℚ)⌉ * n ∧
      (⌈(l : ℚ) / (n : ℚ)⌉ - 1) * n < (l : ℤ) := by
  have hn' : (0 : ℚ) < (n : ℚ) := by exact_mod_cast hn
  constructor
  · have h1 : (l : ℚ) / (n : ℚ) ≤ (⌈(l : ℚ) / (n : ℚ)⌉ : ℚ) := Int.le_ceil _
    rw [div_le_iff₀ hn'] at h1
    exact_mod_cast h1
  · have h2 : ((⌈(l : ℚ) / (n : ℚ)⌉ : ℚ)) < (l : ℚ) / (n : ℚ) + 1 :=
      Int.ceil_lt_add_one _
    have h3 : ((⌈(l : ℚ) / (n : ℚ)⌉ : ℚ) - 1) * (n : ℚ) < (l : ℚ) := by
      rw [← lt_div_iff₀ hn']
      linarith
    exact_mod_cast h3

/-- Claim C1: for every valid input (all numeric fields positive, the
alternative ones when used), compute succeeds and returns
pu_per_lot = ceil(lot_size / parts_per_pu),
daily_production_rate = lot_size / working_days_per_week (unrounded),
daily_pu_need_per_luf = ceil(daily_production_rate / parts_per_pu),
luf_need_of_pu = daily_pu_need_per_luf * luf_days, and
total_packaging_units = luf_need_of_pu + 2 * pu_per_lot (the safety stock
being two lots' worth of packaging units); in particular the default inputs
lot_size=1000, parts_per_pu=10, working_days_per_week=5, luf_days=5 give
pu_per_lot=100, daily_production_rate=200, daily_pu_need_per_luf=20,
luf_need_of_pu=100, safety stock 200 and total_packaging_units=300. -/
theorem c1_compute_formulas :
    (∀ p : CapacityParameters,
      0 < p.lot_size → 0 < p.parts_per_pu → 0 < p.working_days_per_week →
      0 < p.luf_days → 0 < p.standard_price →
      (p.use_alternative = true → 0 < p.alt_parts_per_pu ∧ 0 < p.alt_price) →
      ∃ r, calculate_capacity p = some r ∧
        r.pu_per_lot = ⌈p.lot_size / p.parts_per_pu⌉ ∧
        r.daily_production_rate = p.lot_size / p.working_days_per_week ∧
        r.daily_pu_need_per_luf = ⌈r.daily_production_rate / p.parts_per_pu⌉ ∧
        r.luf_need_of_pu = (r.daily_pu_need_per_luf : ℚ) * p.luf_days ∧
        r.total_packaging_units = r.luf_need_of_pu + 2 * (r.pu_per_lot : ℚ)) ∧
    calculate_capacity exampleParams = some exampleResult := by
  constructor
  · intro p h1 h2 h3 h4 h5 h6
    have hs : (calculate_capacity p).isSome = true :=
      calculate_capacity_isSome (ne_of_gt h2) (ne_of_gt h3)
        (fun hu => ⟨ne_of_gt (h6 hu).1, ne_of_gt (h6 hu).2⟩)
    obtain ⟨r, hr⟩ := Option.isSome_iff_exists.mp hs
    obtain ⟨f1, f2, f3, f4, f5, f6⟩ := calculate_capacity_fields hr
    refine ⟨r, hr, f1, f2, ?_, f4, ?_⟩
    · rw [f2]
      exact f3
    · rw [f5]
      ring
  · with_unfolding_all rfl

/-- Claim C1 witness: the general part of the claim applied at the app's
default parameters. -/
theorem c1_compute_formulas_witness :
    ∃ r, calculate_capacity exampleParams = some r ∧
      r.pu_per_lot = ⌈exampleParams.lot_size / exampleParams.parts_per_pu⌉ ∧
      r.daily_production_rate =
        exampleParams.lot_size / exampleParams.working_days_per_week ∧
      r.daily_pu_need_per_luf =
        ⌈r.daily_production_rate / exampleParams.parts_per_pu⌉ ∧
      r.luf_need_of_pu = (r.daily_pu_need_per_luf : ℚ) * exampleParams.luf_days ∧
      r.total_packaging_units = r.luf_need_of_pu + 2 * (r.pu_per_lot : ℚ) :=
  c1_compute_formulas.1 exampleParams (by with_unfolding_all decide)
    (by with_unfolding_all decide) (by with_unfolding_all decide)
    (by with_unfolding_all decide) (by with_unfolding_all decide)
    (by with_unfolding_all decide)

/-- Claim C2 counterexample: a negative parts_per_pu is not rejected —
the claim says compute must fail on any zero-or-negative parts_per_pu, but
at parts_per_pu = -10 the computation runs through and produces a result. -/
theorem c2_counterexample :
    ({ exampleParams with parts_per_pu := -10 } : CapacityParameters).parts_per_pu < 0 ∧
    (calculate_capacity { exampleParams with parts_per_pu := -10 }).isSome = true := by
  with_unfolding_all decide

/-- Claim C2 (amended): compute performs no up-front validation; it fails
exactly when a divisor it reaches is zero (parts_per_pu,
working_days_per_week, or — when use_alternative — alt_parts_per_pu or
alt_price), the failure being a ZeroDivisionError during the arithmetic;
nonzero (in particular negative) values are never rejected, and for every
input with those fields nonzero compute returns a result. -/
theorem c2_divzero_only : ∀ p : CapacityParameters,
    ((p.parts_per_pu = 0 ∨ p.working_days_per_week = 0 ∨
        (p.use_alternative = true ∧ (p.alt_parts_per_pu = 0 ∨ p.alt_price = 0))) →
      calculate_capacity p = none) ∧
    (p.parts_per_pu ≠ 0 → p.working_days_per_week ≠ 0 →
      (p.use_alternative = true → p.alt_parts_per_pu ≠ 0 ∧ p.alt_price ≠ 0) →
      (calculate_capacity p).isSome = true) := by
  intro p
  exact ⟨calculate_capacity_eq_none,
    fun h1 h2 h3 => calculate_capacity_isSome h1 h2 h3⟩

/-- Claim C2 witness: a zero parts_per_pu makes compute fail, and a negative
one does not. -/
theorem c2_divzero_only_witness :
    calculate_capacity { exampleParams with parts_per_pu := 0 } = none ∧
    (calculate_capacity { exampleParams with parts_per_pu := -10 }).isSome = true := by
  constructor
  · exact (c2_divzero_only _).1 (Or.inl (by with_unfolding_all decide))
  · exact (c2_divzero_only _).2 (by with_unfolding_all decide)
      (by with_unfolding_all decide) (by with_unfolding_all decide)

/-- Claim C3: with use_alternative = true (and alt_price nonzero, or the
division would raise), the returned break-even point is literally
standard_cost / alt_price = (total_packaging_units * standard_price) /
alt_price, ignoring alt_total_packaging_units; at the default parameters
with the alternative enabled (alt_parts_per_pu=15, standard_price=10,
alt_price=8) the run computes alt_pu_per_lot = ceil(1000/15) = 67,
standard_cost = 3000 and break_even_point = 375. -/
theorem c3_break_even_formula :
    (∀ (p : CapacityParameters) (r : CapacityResult),
      p.use_alternative = true → calculate_capacity p = some r →
      r.standard_cost = r.total_packaging_units * p.standard_price ∧
      r.break_even_point =
        some (r.total_packaging_units * p.standard_price / p.alt_price)) ∧
    calculate_capacity exampleAltParams = some exampleAltResult ∧
    ⌈exampleAltParams.lot_size / exampleAltParams.alt_parts_per_pu⌉ = (67 : ℤ) := by
  refine ⟨?_, by with_unfolding_all rfl, by with_unfolding_all rfl⟩
  intro p r hu h
  have f6 := (calculate_capacity_fields h).2.2.2.2.2
  have hb := (calculate_capacity_alt hu h).2.2.2
  rw [f6] at hb
  exact ⟨f6, hb⟩

/-- Claim C3 witness: the general part of the claim applied at the default
parameters with the alternative enabled. -/
theorem c3_break_even_formula_witness :
    exampleAltResult.standard_cost =
      exampleAltResult.total_packaging_units * exampleAltParams.standard_price ∧
    exampleAltResult.break_even_point =
      some (exampleAltResult.total_packaging_units *
        exampleAltParams.standard_price / exampleAltParams.alt_price) :=
  c3_break_even_formula.1 exampleAltParams exampleAltResult
    (by with_unfolding_all rfl) (by with_unfolding_all rfl)

/-- Claim C4: with use_alternative = false every alternative-path field of
the returned result (the echoed alternative parts-per-PU,
alt_total_packaging_units, alt_cost and break_even_point) is the explicit
not-applicable marker, which in particular differs from a zero value. -/
theorem c4_na_markers : ∀ (p : CapacityParameters) (r : CapacityResult),
    p.use_alternative = false → calculate_capacity p = some r →
    r.alt_parts_per_pu = none ∧ r.alt_total_packaging_units = none ∧
    r.alt_cost = none ∧ r.break_even_point = none ∧
    r.alt_total_packaging_units ≠ some 0 ∧ r.alt_cost ≠ some 0 ∧
    r.break_even_point ≠ some 0 := by
  intro p r hu h
  obtain ⟨h1, h2, h3, h4⟩ := calculate_capacity_no_alt hu h
  exact ⟨h1, h2, h3, h4, by rw [h2]; simp, by rw [h3]; simp, by rw [h4]; simp⟩

/-- Claim C4 witness: the claim applied at the app's default parameters,
whose checkbox is off. -/
theorem c4_na_markers_witness :
    exampleResult.alt_parts_per_pu = none ∧
    exampleResult.alt_total_packaging_units = none ∧
    exampleResult.alt_cost = none ∧ exampleResult.break_even_point = none ∧
    exampleResult.alt_total_packaging_units ≠ some 0 ∧
    exampleResult.alt_cost ≠ some 0 ∧ exampleResult.break_even_point ≠ some 0 :=
  c4_na_markers exampleParams exampleResult (by with_unfolding_all rfl)
    (by with_unfolding_all rfl)

/-- Claim C5: the sweep over the empty range returns the empty sequence
(not an error), and whenever it returns, the result list has one entry per
supplied value, in order, the i-th entry being the total standard packaging
units of compute run on the base parameters with the i-th value substituted
for the varied field (the `Forall₂` states exactly this pointwise
correspondence in order, and forces equal lengths). -/
theorem c5_sweep_pointwise (base : CapacityParameters) (f : VariedField) :
    create_sensitivity_analysis base f [] = some (base, []) ∧
    ∀ (vs : List ℚ) (out : CapacityParameters × List ℚ),
      create_sensitivity_analysis base f vs = some out →
      out.2.length = vs.length ∧
      List.Forall₂ (fun v t =>
        (calculate_capacity (setParam base f v)).map
          CapacityResult.total_packaging_units = some t) vs out.2 := by
  constructor
  · rfl
  · intro vs out h
    obtain ⟨h1, l, h2, h3⟩ := sensitivity_loop_spec f vs base [] out h
    rw [h2]
    simp only [List.nil_append]
    exact ⟨h3.length_eq.symm, h3⟩

/-- Claim C5 witness: sweeping lot_size over the two-point range
[1000, 500] from the default parameters yields a two-entry result list. -/
theorem c5_sweep_pointwise_witness :
    ∃ out : CapacityParameters × List ℚ,
      create_sensitivity_analysis exampleParams VariedField.lot_size
        [1000, 500] = some out ∧ out.2.length = 2 := by
  refine ⟨(exampleParams, [300, 150]), by with_unfolding_all rfl, ?_⟩
  have h := (c5_sweep_pointwise exampleParams VariedField.lot_size).2
    [1000, 500] (exampleParams, [300, 150]) (by with_unfolding_all rfl)
  exact h.1

/-- Claim C6: for positive integer lot_size and parts_per_pu, the
pu_per_lot returned by compute is the ceiling of their quotient:
pu_per_lot * parts_per_pu >= lot_size and
(pu_per_lot - 1) * parts_per_pu < lot_size. -/
theorem c6_pu_per_lot_ceiling : ∀ (p : CapacityParameters)
    (r : CapacityResult) (l n : ℕ), 0 < l → 0 < n →
    p.lot_size = (l : ℚ) → p.parts_per_pu = (n : ℚ) →
    calculate_capacity p = some r →
    (l : ℤ) ≤ r.pu_per_lot * (n : ℤ) ∧
      (r.pu_per_lot - 1) * (n : ℤ) < (l : ℤ) := by
  intro p r l n hl hn hlot hppu h
  have f1 := (calculate_capacity_fields h).1
  rw [hlot, hppu] at f1
  rw [f1]
  exact ceil_div_bounds l n hl hn

/-- Claim C6 witness: at the default parameters,
100 * 10 >= 1000 and 99 * 10 < 1000. -/
theorem c6_pu_per_lot_ceiling_witness :
    ((1000 : ℕ) : ℤ) ≤ exampleResult.pu_per_lot * ((10 : ℕ) : ℤ) ∧
    (exampleResult.pu_per_lot - 1) * ((10 : ℕ) : ℤ) < ((1000 : ℕ) : ℤ) :=
  c6_pu_per_lot_ceiling exampleParams exampleResult 1000 10 (by decide)
    (by decide) (by with_unfolding_all rfl) (by with_unfolding_all rfl)
    (by with_unfolding_all rfl)

/-- Claim C7: whatever range is swept, the loop leaves the base-parameter
object exactly as it was: each iteration works on a fresh copy. -/
theorem c7_base_params_unchanged : ∀ (base : CapacityParameters)
    (f : VariedField) (vs : List ℚ) (out : CapacityParameters × List ℚ),
    create_sensitivity_analysis base f vs = some out → out.1 = base := by
  intro base f vs out h
  exact (sensitivity_loop_spec f vs base [] out h).1

/-- Claim C7 witness: a concrete sweep hands back the base parameters
untouched. -/
theorem c7_base_params_unchanged_witness :
    ((exampleParams, ([300] : List ℚ)) : CapacityParameters × List ℚ).1 =
      exampleParams :=
  c7_base_params_unchanged exampleParams VariedField.lot_size [1000]
    (exampleParams, [300]) (by with_unfolding_all rfl)

/-- Claim C8: starting from the empty scenario store, adding n results one
by one leaves exactly those n results, in call order, and running compute
or the sweep inside a session leaves the scenario list untouched. -/
theorem c8_scenario_append : ∀ (rs store : List CapacityResult)
    (p base : CapacityParameters) (f : VariedField) (vs : List ℚ),
    allScenarios (List.foldl addScenario [] rs) = rs ∧
    (run_compute_in_session store p).1 = allScenarios store ∧
    (run_sweep_in_session store base f vs).1 = allScenarios store := by
  intro rs store p base f vs
  refine ⟨?_, rfl, rfl⟩
  simp [allScenarios, foldl_addScenario]

/-- Claim C9: when use_alternative is false, the alternative-only inputs
alt_parts_per_pu and alt_price have no influence on the result: two inputs
differing only there produce identical result records. -/
theorem c9_alt_inputs_no_influence : ∀ (p : CapacityParameters) (a b : ℚ),
    p.use_alternative = false →
    calculate_capacity { p with alt_parts_per_pu := a, alt_price := b } =
      calculate_capacity p := by
  intro p a b hu
  simp [calculate_capacity, hu]

/-- Claim C9 witness: changing the alternative inputs under a false
checkbox changes nothing at the default parameters. -/
theorem c9_alt_inputs_no_influence_witness :
    calculate_capacity
        { exampleParams with alt_parts_per_pu := 99, alt_price := 77 } =
      calculate_capacity exampleParams :=
  c9_alt_inputs_no_influence exampleParams 99 77 (by with_unfolding_all rfl)

/-- Claim C10: on both branches the standard packaging cost field of the
result is the number total_packaging_units * standard_price, never the
not-applicable marker (its type is plain, not optional). -/
theorem c10_standard_cost_both_branches : ∀ (p : CapacityParameters)
    (r : CapacityResult), calculate_capacity p = some r →
    r.standard_cost = r.total_packaging_units * p.standard_price := by
  intro p r h
  exact (calculate_capacity_fields h).2.2.2.2.2

/-- Claim C10 witness: at the default parameters (alternative off) the
standard cost equals 300 * 10. -/
theorem c10_standard_cost_both_branches_witness :
    exampleResult.standard_cost =
      exampleResult.total_packaging_units * exampleParams.standard_price :=
  c10_standard_cost_both_branches exampleParams exampleResult
    (by with_unfolding_all rfl)
